import Mathlib

/-!
Verification of the icon-generation script of the urgood repository
(`generate_app_icons.py`).

The script draws a fixed app icon (rounded chat bubble, tail, sparkle,
accent dots) on a transparent RGBA layer, composites it over a vertical
gradient background, and writes the result as PNG files at a fixed list
of sizes into a fixed directory.

Modelling conventions of this shallow embedding:
* Python ints are `ℤ` (pixel coordinates) or `ℕ` (sizes, list data);
  Python floor division `//` is `Int.fdiv`.
* Python floats are `ℚ`.  Every float appearing in the script is a
  product of small integers with short decimal constants; at the sizes
  the program uses (powers of two up to 1024) binary floating point
  evaluates these expressions exactly, so the rational model is faithful.
* Python `int(·)` (truncation toward zero) is `ratTrunc`.
* Drawing on the overlay layer is modelled as the trace of draw calls
  (`overlayOps`) together with a per-pixel colour obtained by folding
  ideal-geometry coverage of each operation (Pillow's default draw mode
  overwrites pixels, so the last covering operation wins).
* The final image is RGB-mode: compositing keeps the gradient background
  fully opaque, so every pixel of the result carries alpha 255.
-/

/-- Python `int(·)` applied to a rational: truncation toward zero. -/
def ratTrunc (q : ℚ) : ℤ := q.num.tdiv q.den

/-- An RGBA colour; channels are unbounded integers as in Python. -/
structure RGBA where
  r : ℤ
  g : ℤ
  b : ℤ
  a : ℤ
  deriving Repr, DecidableEq

/-- Truncation of a nonnegative rational is its floor. -/
theorem ratTrunc_eq_floor (q : ℚ) (hq : 0 ≤ q) : ratTrunc q = ⌊q⌋ := by
  rw [ratTrunc, Rat.floor_def, Int.tdiv_eq_ediv (Rat.num_nonneg.2 hq) (by positivity)]

/-- Truncating a quotient of naturals is natural division. -/
theorem ratTrunc_natCast_div (n m : ℕ) :
    ratTrunc ((n : ℚ) / (m : ℚ)) = ((n / m : ℕ) : ℤ) := by
  rw [ratTrunc_eq_floor _ (by positivity), Rat.floor_natCast_div_natCast]
  exact (Int.natCast_div n m).symm

/-- Truncating `c * (s / 1024)` (the script's `int(c * scale)` pattern)
is the natural division `c * s / 1024`. -/
theorem ratTrunc_scale (c s : ℕ) :
    ratTrunc ((c : ℚ) * ((s : ℚ) / 1024)) = ((c * s / 1024 : ℕ) : ℤ) := by
  have h : (c : ℚ) * ((s : ℚ) / 1024) = ((c * s : ℕ) : ℚ) / ((1024 : ℕ) : ℚ) := by
    push_cast; ring
  rw [h, ratTrunc_natCast_div]

/- ### Brand palette (source lines 23-27) -/

def sky_blue : ℤ × ℤ × ℤ := (77, 166, 255)

def sky_blue_light : ℤ × ℤ × ℤ := (102, 178, 255)

def peach : ℤ × ℤ × ℤ := (255, 185, 151)

def white : ℤ × ℤ × ℤ := (255, 255, 255)

/-- An RGB triple with an explicit alpha, as Pillow interprets a
3-tuple fill on an RGBA image (alpha defaults to 255). -/
def withAlpha (c : ℤ × ℤ × ℤ) (a : ℤ) : RGBA := ⟨c.1, c.2.1, c.2.2, a⟩

/- ### Geometry of `draw_urgood_icon` (source lines 29-119) -/

/-- All scalar quantities computed by `draw_urgood_icon` before any
drawing, with the source's local-variable names. -/
structure IconGeom where
  scale : ℚ
  bubble_size : ℤ
  bubble_x : ℤ
  bubble_y : ℤ
  shadow_offset : ℤ
  tail_size : ℤ
  tail_x : ℤ
  tail_y : ℤ
  sparkle_center_x : ℤ
  sparkle_center_y : ℤ
  sparkle_size : ℤ
  point_length : ℤ
  point_width : ℤ
  small_sparkle : ℤ
  small_width : ℤ
  dot_distance : ℤ
  dot_size : ℤ

/-- The geometry computations of `draw_urgood_icon`, line by line.
Decimal float literals are written as the rationals they denote
(`0.2 = 2/10`, `0.3 = 3/10`, `0.4 = 4/10`, `0.8 = 8/10`). -/
def iconGeom (size : ℕ) : IconGeom :=
  let scale : ℚ := (size : ℚ) / 1024
  let bubble_size := ratTrunc (700 * scale)
  let bubble_x := Int.fdiv ((size : ℤ) - bubble_size) 2
  let bubble_y := ratTrunc ((bubble_x : ℚ) - 40 * scale)
  let shadow_offset := ratTrunc (8 * scale)
  let tail_size := ratTrunc (60 * scale)
  let tail_x := bubble_x + ratTrunc ((bubble_size : ℚ) * (2 / 10))
  let tail_y := bubble_y + bubble_size
  let sparkle_center_x := bubble_x + Int.fdiv bubble_size 2
  let sparkle_center_y := bubble_y + Int.fdiv bubble_size 2
  let sparkle_size := ratTrunc (200 * scale)
  let point_length := Int.fdiv sparkle_size 2
  let point_width := ratTrunc ((sparkle_size : ℚ) * (3 / 10))
  let small_sparkle := ratTrunc ((sparkle_size : ℚ) * (4 / 10))
  let small_width := ratTrunc ((small_sparkle : ℚ) * (3 / 10))
  let dot_distance := ratTrunc ((sparkle_size : ℚ) * (8 / 10))
  let dot_size := ratTrunc (20 * scale)
  ⟨scale, bubble_size, bubble_x, bubble_y, shadow_offset, tail_size, tail_x, tail_y,
   sparkle_center_x, sparkle_center_y, sparkle_size, point_length, point_width,
   small_sparkle, small_width, dot_distance, dot_size⟩

/- ### Drawing operations on the RGBA overlay (source lines 38-123) -/

/-- One Pillow draw call on the overlay layer. -/
inductive DrawOp where
  | roundedRect (x0 y0 x1 y1 radius : ℤ) (fill : RGBA)
  | polygon (pts : List (ℤ × ℤ)) (fill : RGBA)
  | ellipse (x0 y0 x1 y1 : ℤ) (fill : RGBA)
  deriving Repr, DecidableEq

/-- The fill colour of a draw operation. -/
def DrawOp.fillColor : DrawOp → RGBA
  | .roundedRect _ _ _ _ _ f => f
  | .polygon _ f => f
  | .ellipse _ _ _ _ f => f

/-- The trace of draw calls issued by `draw_urgood_icon` on the overlay,
in source order: shadow, bubble body, tail, two peach diamonds, two white
diamonds, three accent-dot ellipses. -/
def overlayOps (size : ℕ) : List DrawOp :=
  let g := iconGeom size
  let corner := ratTrunc ((g.bubble_size : ℚ) * (1 / 4))
  [ .roundedRect (g.bubble_x + g.shadow_offset) (g.bubble_y + g.shadow_offset)
      (g.bubble_x + g.bubble_size + g.shadow_offset)
      (g.bubble_y + g.bubble_size + g.shadow_offset) corner ⟨0, 0, 0, 30⟩,
    .roundedRect g.bubble_x g.bubble_y (g.bubble_x + g.bubble_size)
      (g.bubble_y + g.bubble_size) corner (withAlpha sky_blue 255),
    .polygon [(g.tail_x, g.tail_y), (g.tail_x + g.tail_size, g.tail_y),
      (g.tail_x + Int.fdiv g.tail_size 2, g.tail_y + g.tail_size)]
      (withAlpha sky_blue 255),
    .polygon [(g.sparkle_center_x, g.sparkle_center_y - g.point_length),
      (g.sparkle_center_x + Int.fdiv g.point_width 2, g.sparkle_center_y),
      (g.sparkle_center_x, g.sparkle_center_y + g.point_length),
      (g.sparkle_center_x - Int.fdiv g.point_width 2, g.sparkle_center_y)]
      (withAlpha peach 255),
    .polygon [(g.sparkle_center_x - g.point_length, g.sparkle_center_y),
      (g.sparkle_center_x, g.sparkle_center_y - Int.fdiv g.point_width 2),
      (g.sparkle_center_x + g.point_length, g.sparkle_center_y),
      (g.sparkle_center_x, g.sparkle_center_y + Int.fdiv g.point_width 2)]
      (withAlpha peach 255),
    .polygon [(g.sparkle_center_x, g.sparkle_center_y - Int.fdiv g.small_sparkle 2),
      (g.sparkle_center_x + Int.fdiv g.small_width 2, g.sparkle_center_y),
      (g.sparkle_center_x, g.sparkle_center_y + Int.fdiv g.small_sparkle 2),
      (g.sparkle_center_x - Int.fdiv g.small_width 2, g.sparkle_center_y)]
      (withAlpha white 255),
    .polygon [(g.sparkle_center_x - Int.fdiv g.small_sparkle 2, g.sparkle_center_y),
      (g.sparkle_center_x, g.sparkle_center_y - Int.fdiv g.small_width 2),
      (g.sparkle_center_x + Int.fdiv g.small_sparkle 2, g.sparkle_center_y),
      (g.sparkle_center_x, g.sparkle_center_y + Int.fdiv g.small_width 2)]
      (withAlpha white 255),
    .ellipse (g.sparkle_center_x + g.dot_distance - g.dot_size)
      (g.sparkle_center_y - g.dot_distance - g.dot_size)
      (g.sparkle_center_x + g.dot_distance + g.dot_size)
      (g.sparkle_center_y - g.dot_distance + g.dot_size) ⟨255, 255, 255, 200⟩,
    .ellipse (g.sparkle_center_x - g.dot_distance - g.dot_size)
      (g.sparkle_center_y - g.dot_distance - g.dot_size)
      (g.sparkle_center_x - g.dot_distance + g.dot_size)
      (g.sparkle_center_y - g.dot_distance + g.dot_size) ⟨255, 255, 255, 200⟩,
    .ellipse (g.sparkle_center_x + g.dot_distance - g.dot_size)
      (g.sparkle_center_y + g.dot_distance - g.dot_size)
      (g.sparkle_center_x + g.dot_distance + g.dot_size)
      (g.sparkle_center_y + g.dot_distance + g.dot_size) ⟨255, 255, 255, 200⟩ ]

/- ### Ideal-geometry pixel coverage of the draw operations.
No claim depends on Pillow's exact rasterisation rules; these predicates
give the mathematical region of each primitive, restricted to its
bounding box so that degenerate shapes cover only their own pixels. -/

/-- Coverage of a rounded rectangle: inside the bounding box, and inside
the quarter-circle in all four corner squares. -/
def coversRoundedRect (x0 y0 x1 y1 rad px py : ℤ) : Bool :=
  let dx : ℤ := if px < x0 + rad then x0 + rad - px
    else if x1 - rad < px then px - (x1 - rad) else 0
  let dy : ℤ := if py < y0 + rad then y0 + rad - py
    else if y1 - rad < py then py - (y1 - rad) else 0
  decide (x0 ≤ px ∧ px ≤ x1 ∧ y0 ≤ py ∧ py ≤ y1) &&
    (decide (dx = 0) || decide (dy = 0) || decide (dx * dx + dy * dy ≤ rad * rad))

/-- Signed area test for the edge from `a` to `b` against point `p`. -/
def edgeCross (a b p : ℤ × ℤ) : ℤ :=
  (b.1 - a.1) * (p.2 - a.2) - (b.2 - a.2) * (p.1 - a.1)

/-- Coverage of a filled convex polygon: inside the vertex bounding box
and on one common side of every edge (either orientation). -/
def coversPolygon (pts : List (ℤ × ℤ)) (px py : ℤ) : Bool :=
  match pts with
  | [] => false
  | p :: rest =>
    let mnx := rest.foldl (fun m q => min m q.1) p.1
    let mxx := rest.foldl (fun m q => max m q.1) p.1
    let mny := rest.foldl (fun m q => min m q.2) p.2
    let mxy := rest.foldl (fun m q => max m q.2) p.2
    let edges := (p :: rest).zip (rest ++ [p])
    decide (mnx ≤ px ∧ px ≤ mxx ∧ mny ≤ py ∧ py ≤ mxy) &&
      (edges.all (fun e => decide (0 ≤ edgeCross e.1 e.2 (px, py))) ||
       edges.all (fun e => decide (edgeCross e.1 e.2 (px, py) ≤ 0)))

/-- Coverage of an axis-aligned filled ellipse given by its bounding box. -/
def coversEllipse (x0 y0 x1 y1 px py : ℤ) : Bool :=
  decide (x0 ≤ px ∧ px ≤ x1 ∧ y0 ≤ py ∧ py ≤ y1 ∧
    (2 * px - (x0 + x1)) ^ 2 * (y1 - y0) ^ 2 +
      (2 * py - (y0 + y1)) ^ 2 * (x1 - x0) ^ 2 ≤
        (x1 - x0) ^ 2 * (y1 - y0) ^ 2)

/-- Whether a draw operation covers a pixel. -/
def DrawOp.covers : DrawOp → ℤ → ℤ → Bool
  | .roundedRect x0 y0 x1 y1 rad _, px, py => coversRoundedRect x0 y0 x1 y1 rad px py
  | .polygon pts _, px, py => coversPolygon pts px py
  | .ellipse x0 y0 x1 y1 _, px, py => coversEllipse x0 y0 x1 y1 px py

/-- Colour of the overlay layer at a pixel: Pillow's default draw mode
overwrites, so the last covering operation wins; uncovered pixels keep
the transparent initial colour `(0, 0, 0, 0)` of `Image.new`. -/
def overlayPx (size : ℕ) (px py : ℤ) : RGBA :=
  (overlayOps size).foldl (fun c op => if op.covers px py then op.fillColor else c)
    ⟨0, 0, 0, 0⟩

/- ### Gradient background and compositing (source lines 125-142) -/

/-- One channel of the per-row gradient: Python
`int(light * (1 - y / size) + dark * (y / size))`. -/
def gradientChannel (light dark : ℤ) (size y : ℕ) : ℤ :=
  ratTrunc ((light : ℚ) * (1 - (y : ℚ) / (size : ℚ)) +
    (dark : ℚ) * ((y : ℚ) / (size : ℚ)))

/-- Colour of row `y` of the gradient background (an RGB image, hence
alpha 255): lighter sky blue at the top, sky blue at the bottom. -/
def gradientColor (size y : ℕ) : RGBA :=
  ⟨gradientChannel sky_blue_light.1 sky_blue.1 size y,
   gradientChannel sky_blue_light.2.1 sky_blue.2.1 size y,
   gradientChannel sky_blue_light.2.2 sky_blue.2.2 size y,
   255⟩

/-- Pillow's integer approximation of `a * b / 255` used while blending. -/
def mulDiv255 (a b : ℤ) : ℤ :=
  let t := a * b + 128
  Int.fdiv (Int.fdiv t 256 + t) 256

/-- One channel of `Image.paste` with an alpha mask over an RGB image. -/
def blendChannel (mask bg fg : ℤ) : ℤ :=
  mulDiv255 bg (255 - mask) + mulDiv255 fg mask

/-- A raster image: dimensions plus a pixel-colour function. -/
structure Img where
  width : ℕ
  height : ℕ
  px : ℕ → ℕ → RGBA

/-- The final composited pixel: overlay blended over the gradient row by
the overlay's alpha.  The result lives in an RGB-mode image, so its
alpha is 255. -/
def compositePx (size : ℕ) (x y : ℕ) : RGBA :=
  let bg := gradientColor size y
  let fg := overlayPx size (x : ℤ) (y : ℤ)
  ⟨blendChannel fg.a bg.r fg.r,
   blendChannel fg.a bg.g fg.g,
   blendChannel fg.a bg.b fg.b,
   255⟩

/-- The renderer `draw_urgood_icon`: a `size × size` RGB image holding
the gradient background with the icon overlay composited on top. -/
def draw_urgood_icon (size : ℕ) : Img :=
  { width := size, height := size, px := fun x y => compositePx size x y }

/- ### The driver `main` (source lines 150-197) -/

/-- The iOS entry of the size table (source lines 161-163). -/
def ios_sizes : List (String × ℕ) := [("app_icon_1024.png", 1024)]

/-- The macOS entries of the size table (source lines 166-177). -/
def mac_sizes : List (String × ℕ) :=
  [("app_icon_16.png", 16),
   ("app_icon_16@2x.png", 32),
   ("app_icon_32.png", 32),
   ("app_icon_32@2x.png", 64),
   ("app_icon_128.png", 128),
   ("app_icon_128@2x.png", 256),
   ("app_icon_256.png", 256),
   ("app_icon_256@2x.png", 512),
   ("app_icon_512.png", 512),
   ("app_icon_512@2x.png", 1024)]

/-- The combined batch list `all_sizes = ios_sizes + mac_sizes`. -/
def all_sizes : List (String × ℕ) := ios_sizes ++ mac_sizes

/-- Outcome of one run of the script: its exit code, the entries whose
generation was attempted, and the entries actually written.  `saveOk`
abstracts whether rendering/saving a given entry succeeds. -/
structure RunResult where
  exitCode : ℕ
  attempted : List (String × ℕ)
  written : List (String × ℕ)
  deriving Repr, DecidableEq

/-- The driver loop (source lines 181-188): every entry is attempted in
list order; a failing entry is caught and skipped, the loop continues. -/
def runBatch (saveOk : String → ℕ → Bool) :
    List (String × ℕ) × List (String × ℕ) :=
  all_sizes.foldl
    (fun acc entry =>
      (acc.1 ++ [entry],
       if saveOk entry.1 entry.2 then acc.2 ++ [entry] else acc.2))
    ([], [])

/-- The whole program: the import guard exits with code 1 when Pillow is
missing (source lines 9-15); `main` exits with code 1 when the icon
directory is missing (source lines 154-156); otherwise the batch runs
and the script falls off the end of `main` with exit code 0. -/
def mainRun (pillowAvailable dirExists : Bool) (saveOk : String → ℕ → Bool) :
    RunResult :=
  if !pillowAvailable then ⟨1, [], []⟩
  else if !dirExists then ⟨1, [], []⟩
  else
    let b := runBatch saveOk
    ⟨0, b.1, b.2⟩

/- ### Spec-side formulas, written from the specification's wording,
to be compared with the embedded source computations. -/

/-- Spec formula: bubble side `int(700 * scale)`. -/
def specBubbleSide (s : ℕ) : ℤ := ratTrunc (700 * ((s : ℚ) / 1024))

/-- Spec formula: bubble left edge `(S - side) // 2`. -/
def specBubbleLeft (s : ℕ) : ℤ := Int.fdiv ((s : ℤ) - specBubbleSide s) 2

/-- Spec formula: bubble top edge `int((S - side) // 2 - 40 * scale)`. -/
def specBubbleTop (s : ℕ) : ℤ :=
  ratTrunc ((specBubbleLeft s : ℚ) - 40 * ((s : ℚ) / 1024))

/-- Spec formula: gradient channel `int(light * (1 - y/S) + dark * (y/S))`. -/
def specGradChannel (light dark : ℤ) (s y : ℕ) : ℤ :=
  ratTrunc ((light : ℚ) * (1 - (y : ℚ) / (s : ℚ)) +
    (dark : ℚ) * ((y : ℚ) / (s : ℚ)))

/- ### Arithmetic lemmas about the gradient channel -/

/-- The gradient channel as a natural division. -/
theorem gradientChannel_eq_div (l d s y : ℕ) (hs : 0 < s) (hy : y ≤ s) :
    gradientChannel (l : ℤ) (d : ℤ) s y = (((l * (s - y) + d * y) / s : ℕ) : ℤ) := by
  unfold gradientChannel
  have h : ((l : ℤ) : ℚ) * (1 - (y : ℚ) / (s : ℚ)) +
      ((d : ℤ) : ℚ) * ((y : ℚ) / (s : ℚ)) =
        ((l * (s - y) + d * y : ℕ) : ℚ) / ((s : ℕ) : ℚ) := by
    have hs' : ((s : ℕ) : ℚ) ≠ 0 := Nat.cast_ne_zero.mpr hs.ne'
    push_cast [Nat.cast_sub hy]
    field_simp
  rw [h, ratTrunc_natCast_div]

/-- At row 0 the gradient channel is exactly the light endpoint. -/
theorem gradientChannel_zero (l d s : ℕ) (hs : 0 < s) :
    gradientChannel (l : ℤ) (d : ℤ) s 0 = (l : ℤ) := by
  rw [gradientChannel_eq_div l d s 0 hs (Nat.zero_le s)]
  simp [Nat.mul_div_cancel _ hs]

/-- A constant-endpoint gradient channel is constant. -/
theorem gradientChannel_const (c s y : ℕ) (hs : 0 < s) (hy : y ≤ s) :
    gradientChannel (c : ℤ) (c : ℤ) s y = (c : ℤ) := by
  rw [gradientChannel_eq_div c c s y hs hy, ← Nat.mul_add, Nat.sub_add_cancel hy,
    Nat.mul_div_cancel _ hs]

/-- The gradient channel lies between the dark and light endpoints. -/
theorem gradientChannel_bounds (l d s y : ℕ) (hdl : d ≤ l) (hs : 0 < s) (hy : y ≤ s) :
    (d : ℤ) ≤ gradientChannel (l : ℤ) (d : ℤ) s y ∧
      gradientChannel (l : ℤ) (d : ℤ) s y ≤ (l : ℤ) := by
  rw [gradientChannel_eq_div l d s y hs hy]
  constructor
  · have h1 : d * s ≤ l * (s - y) + d * y := by
      have h2 : d * s = d * (s - y) + d * y := by
        rw [← Nat.mul_add, Nat.sub_add_cancel hy]
      have h3 : d * (s - y) ≤ l * (s - y) := Nat.mul_le_mul_right _ hdl
      omega
    exact_mod_cast (Nat.le_div_iff_mul_le hs).mpr h1
  · have h1 : l * (s - y) + d * y ≤ l * s := by
      have h2 : l * s = l * (s - y) + l * y := by
        rw [← Nat.mul_add, Nat.sub_add_cancel hy]
      have h3 : d * y ≤ l * y := Nat.mul_le_mul_right _ hdl
      omega
    calc (((l * (s - y) + d * y) / s : ℕ) : ℤ)
        ≤ ((l * s / s : ℕ) : ℤ) := by exact_mod_cast Nat.div_le_div_right h1
      _ = (l : ℤ) := by rw [Nat.mul_div_cancel _ hs]

/-- At the last row the gradient channel is the dark endpoint plus the
truncation residue `(l - d) / s`. -/
theorem gradientChannel_last (l d s : ℕ) (hdl : d ≤ l) (hs : 0 < s) :
    gradientChannel (l : ℤ) (d : ℤ) s (s - 1) = (d : ℤ) + (((l - d) / s : ℕ) : ℤ) := by
  obtain ⟨k, rfl⟩ : ∃ k, s = k + 1 := ⟨s - 1, by omega⟩
  rw [gradientChannel_eq_div l d (k + 1) ((k + 1) - 1) hs (by omega)]
  have h0 : (k + 1) - 1 = k := by omega
  rw [h0]
  have h1 : (k + 1) - k = 1 := by omega
  rw [h1, Nat.mul_one]
  have hdk : d * (k + 1) = d * k + d := by ring
  have h3 : l + d * k = (l - d) + d * (k + 1) := by omega
  rw [h3, Nat.add_mul_div_right _ _ (Nat.succ_pos k)]
  push_cast
  ring

/- ### Helper lemmas about the driver loop and truncated scaling -/

/-- The first component of the driver fold records every entry, in
order, regardless of which entries fail. -/
theorem foldl_batch_attempted (l : List (String × ℕ)) (f : String → ℕ → Bool)
    (a w : List (String × ℕ)) :
    (l.foldl
      (fun acc entry =>
        (acc.1 ++ [entry],
         if f entry.1 entry.2 then acc.2 ++ [entry] else acc.2))
      (a, w)).1 = a ++ l := by
  induction l generalizing a w with
  | nil => simp
  | cons e t ih => simp [ih]

/-- Bounds pinning `c * s / 1024` to the exact ratio within one unit of
truncation. -/
theorem natdiv_bounds (c s : ℕ) :
    (c * s : ℤ) - 1024 < 1024 * ((c * s / 1024 : ℕ) : ℤ) ∧
      1024 * ((c * s / 1024 : ℕ) : ℤ) ≤ (c * s : ℤ) := by
  have h := Nat.div_add_mod (c * s) 1024
  have h2 : (c * s) % 1024 < 1024 := Nat.mod_lt _ (by norm_num)
  omega

/- ### Claim theorems -/

/-- C1: for every positive size `S`, `draw_urgood_icon` returns an
`S × S` raster whose final composited output is fully opaque — every
pixel of the RGB-mode result carries alpha 255. -/
theorem icon_size_and_opacity (s : ℕ) (_hs : 0 < s) :
    (draw_urgood_icon s).width = s ∧ (draw_urgood_icon s).height = s ∧
      ∀ x y : ℕ, ((draw_urgood_icon s).px x y).a = 255 :=
  ⟨rfl, rfl, fun _ _ => rfl⟩

/-- Witness for C1 at size 16. -/
theorem icon_size_and_opacity_witness :
    0 < 16 ∧ (draw_urgood_icon 16).width = 16 ∧
      ((draw_urgood_icon 16).px 3 5).a = 255 :=
  ⟨by norm_num, (icon_size_and_opacity 16 (by norm_num)).1,
   (icon_size_and_opacity 16 (by norm_num)).2.2 3 5⟩

/-- C2: with the output directory present (and every save succeeding),
the batch attempts and writes exactly the 11 fixed entries with the
fixed name-to-size mapping, in list order, and exits with code 0. -/
theorem batch_output_files :
    mainRun true true (fun _ _ => true) =
      ⟨0,
       [("app_icon_1024.png", 1024), ("app_icon_16.png", 16),
        ("app_icon_16@2x.png", 32), ("app_icon_32.png", 32),
        ("app_icon_32@2x.png", 64), ("app_icon_128.png", 128),
        ("app_icon_128@2x.png", 256), ("app_icon_256.png", 256),
        ("app_icon_256@2x.png", 512), ("app_icon_512.png", 512),
        ("app_icon_512@2x.png", 1024)],
       [("app_icon_1024.png", 1024), ("app_icon_16.png", 16),
        ("app_icon_16@2x.png", 32), ("app_icon_32.png", 32),
        ("app_icon_32@2x.png", 64), ("app_icon_128.png", 128),
        ("app_icon_128@2x.png", 256), ("app_icon_256.png", 256),
        ("app_icon_256@2x.png", 512), ("app_icon_512.png", 512),
        ("app_icon_512@2x.png", 1024)]⟩ ∧
    (mainRun true true (fun _ _ => true)).written.length = 11 :=
  ⟨rfl, rfl⟩

/-- C3 counterexample: at size 2 the red channel of the bottom row
(row `S - 1 = 1`) is 89 while the dark endpoint is 77 — a deviation of
12, not a match within rounding. -/
theorem gradient_last_row_cex :
    (gradientColor 2 1).r = 89 ∧ sky_blue.1 = 77 ∧
      (gradientColor 2 1).r - sky_blue.1 = 12 := by
  refine ⟨?_, rfl, ?_⟩ <;>
    norm_num [gradientColor, gradientChannel, sky_blue, sky_blue_light,
      ratTrunc, Int.tdiv]

/-- C3 (amended): every channel of row `y` is the integer truncation of
`light * (1 - y/S) + dark * (y/S)`; row 0 equals the light endpoint
exactly; every row's channels lie between the dark and light endpoint
values; and for `S ≥ 13` — in particular for every supported size
16 ≤ S ≤ 1024 — the bottom row is within 1 of the dark endpoint. -/
theorem gradient_props (s y : ℕ) (hs : 0 < s) (hy : y < s) :
    ((gradientColor s y).r = specGradChannel 102 77 s y ∧
     (gradientColor s y).g = specGradChannel 178 166 s y ∧
     (gradientColor s y).b = specGradChannel 255 255 s y) ∧
    gradientColor s 0 = ⟨102, 178, 255, 255⟩ ∧
    (77 ≤ (gradientColor s y).r ∧ (gradientColor s y).r ≤ 102 ∧
     166 ≤ (gradientColor s y).g ∧ (gradientColor s y).g ≤ 178 ∧
     (gradientColor s y).b = 255) ∧
    (13 ≤ s →
      (77 ≤ (gradientColor s (s - 1)).r ∧ (gradientColor s (s - 1)).r ≤ 78 ∧
       166 ≤ (gradientColor s (s - 1)).g ∧ (gradientColor s (s - 1)).g ≤ 167 ∧
       (gradientColor s (s - 1)).b = 255)) := by
  have hy' : y ≤ s := hy.le
  have hle : s - 1 ≤ s := Nat.sub_le s 1
  refine ⟨⟨rfl, rfl, rfl⟩, ?_, ?_, ?_⟩
  · unfold gradientColor
    congr 1
    · exact gradientChannel_zero 102 77 s hs
    · exact gradientChannel_zero 178 166 s hs
    · exact gradientChannel_zero 255 255 s hs
  · have hr := gradientChannel_bounds 102 77 s y (by norm_num) hs hy'
    have hg := gradientChannel_bounds 178 166 s y (by norm_num) hs hy'
    have hb := gradientChannel_const 255 s y hs hy'
    exact ⟨hr.1, hr.2, hg.1, hg.2, hb⟩
  · intro h13
    have hrb := gradientChannel_bounds 102 77 s (s - 1) (by norm_num) hs hle
    have hgb := gradientChannel_bounds 178 166 s (s - 1) (by norm_num) hs hle
    have hb := gradientChannel_const 255 s (s - 1) hs hle
    have hr : (gradientColor s (s - 1)).r = 77 + ((25 / s : ℕ) : ℤ) := by
      simpa using gradientChannel_last 102 77 s (by norm_num) hs
    have hg : (gradientColor s (s - 1)).g = 166 + ((12 / s : ℕ) : ℤ) := by
      simpa using gradientChannel_last 178 166 s (by norm_num) hs
    have hr25 : (25 : ℕ) / s ≤ 1 := by
      calc (25 : ℕ) / s ≤ 25 / 13 := Nat.div_le_div_left h13 (by norm_num)
        _ = 1 := by norm_num
    have hg12 : (12 : ℕ) / s ≤ 1 := by
      calc (12 : ℕ) / s ≤ 12 / 13 := Nat.div_le_div_left h13 (by norm_num)
        _ ≤ 1 := by norm_num
    refine ⟨hrb.1, ?_, hgb.1, ?_, hb⟩
    · rw [hr]
      have h25 : ((25 / s : ℕ) : ℤ) ≤ 1 := by exact_mod_cast hr25
      omega
    · rw [hg]
      have h12 : ((12 / s : ℕ) : ℤ) ≤ 1 := by exact_mod_cast hg12
      omega

/-- Witness for C3 (amended) at size 16, row 5. -/
theorem gradient_props_witness :
    ((0 : ℕ) < 16 ∧ 5 < 16) ∧ gradientColor 16 0 = ⟨102, 178, 255, 255⟩ :=
  ⟨⟨by norm_num, by norm_num⟩,
   (gradient_props 16 5 (by norm_num) (by norm_num)).2.1⟩

/-- C4: every entry of the fixed list is attempted regardless of which
entries fail, the run still exits with code 0, and exit code 1 occurs
exactly when Pillow is unavailable or the output directory is missing. -/
theorem batch_error_isolation (saveOk : String → ℕ → Bool)
    (pillowAvailable dirExists : Bool) :
    (mainRun true true saveOk).attempted = all_sizes ∧
    (mainRun true true saveOk).exitCode = 0 ∧
    ((mainRun pillowAvailable dirExists saveOk).exitCode = 1 ↔
      (pillowAvailable = false ∨ dirExists = false)) := by
  refine ⟨?_, rfl, ?_⟩
  · show (runBatch saveOk).1 = all_sizes
    unfold runBatch
    simpa using foldl_batch_attempted all_sizes saveOk [] []
  · cases pillowAvailable <;> cases dirExists <;> simp [mainRun]

/-- C5: when the output directory is missing the program exits with
code 1 and neither attempts nor writes any file. -/
theorem missing_dir_fatal (saveOk : String → ℕ → Bool) :
    mainRun true false saveOk = ⟨1, [], []⟩ ∧
    (mainRun true false saveOk).attempted = [] ∧
    (mainRun true false saveOk).written = [] :=
  ⟨rfl, rfl, rfl⟩

/-- C6 counterexample: at size 1024 the accent-dot half-width drawn by
the code is `int(20 * scale) = 20`, not the claimed `10 * scale = 10`. -/
theorem accent_dot_radius_cex :
    (iconGeom 1024).dot_size = 20 ∧
    ratTrunc (10 * ((1024 : ℚ) / 1024)) = 10 ∧
    (iconGeom 1024).dot_size ≠ ratTrunc (10 * ((1024 : ℚ) / 1024)) := by
  refine ⟨?_, ?_, ?_⟩ <;> norm_num [iconGeom, ratTrunc, Int.tdiv]

/-- C6 (amended): for every size the renderer issues exactly three
filled accent ellipses, each in semi-transparent white `(255,255,255,200)`,
centred at diagonal offsets of `int(0.8 * sparkle_size)` from the sparkle
centre (top right, top left, bottom right), with circle radius — half the
bounding-box side — equal to `int(20 * scale)`, not `10 * scale`. -/
theorem accent_dots_spec (s : ℕ) :
    (overlayOps s).filter
      (fun op => match op with
        | DrawOp.ellipse _ _ _ _ _ => true
        | _ => false) =
      [DrawOp.ellipse
        ((iconGeom s).sparkle_center_x + (iconGeom s).dot_distance - (iconGeom s).dot_size)
        ((iconGeom s).sparkle_center_y - (iconGeom s).dot_distance - (iconGeom s).dot_size)
        ((iconGeom s).sparkle_center_x + (iconGeom s).dot_distance + (iconGeom s).dot_size)
        ((iconGeom s).sparkle_center_y - (iconGeom s).dot_distance + (iconGeom s).dot_size)
        ⟨255, 255, 255, 200⟩,
       DrawOp.ellipse
        ((iconGeom s).sparkle_center_x - (iconGeom s).dot_distance - (iconGeom s).dot_size)
        ((iconGeom s).sparkle_center_y - (iconGeom s).dot_distance - (iconGeom s).dot_size)
        ((iconGeom s).sparkle_center_x - (iconGeom s).dot_distance + (iconGeom s).dot_size)
        ((iconGeom s).sparkle_center_y - (iconGeom s).dot_distance + (iconGeom s).dot_size)
        ⟨255, 255, 255, 200⟩,
       DrawOp.ellipse
        ((iconGeom s).sparkle_center_x + (iconGeom s).dot_distance - (iconGeom s).dot_size)
        ((iconGeom s).sparkle_center_y + (iconGeom s).dot_distance - (iconGeom s).dot_size)
        ((iconGeom s).sparkle_center_x + (iconGeom s).dot_distance + (iconGeom s).dot_size)
        ((iconGeom s).sparkle_center_y + (iconGeom s).dot_distance + (iconGeom s).dot_size)
        ⟨255, 255, 255, 200⟩] ∧
    (iconGeom s).dot_size = ratTrunc (20 * ((s : ℚ) / 1024)) ∧
    (iconGeom s).dot_distance =
      ratTrunc (((iconGeom s).sparkle_size : ℚ) * (8 / 10)) :=
  ⟨rfl, rfl, rfl⟩

/-- C7 counterexample: the integer tail size does not keep a constant
ratio to the requested size across the supported sizes: at size 16 it is
0 while at size 1024 it is 60, so `tail(16) * 1024 ≠ tail(1024) * 16`. -/
theorem linear_ratio_cex :
    (iconGeom 16).tail_size = 0 ∧ (iconGeom 1024).tail_size = 60 ∧
      (iconGeom 16).tail_size * 1024 ≠ (iconGeom 1024).tail_size * 16 := by
  refine ⟨?_, ?_, ?_⟩ <;> norm_num [iconGeom, ratTrunc, Int.tdiv]

/-- C7 (amended): bubble side, tail size, sparkle size, and dot radius
are the truncations `⌊c * S / 1024⌋` of quantities that scale exactly
linearly with `S` (constants `c` = 700, 60, 200, 20), so each dimension
equals its constant ratio times `S` up to less than one unit of
truncation; the integer ratios themselves are not exactly constant. -/
theorem dims_linear_scaling (s : ℕ) :
    ((iconGeom s).bubble_size = ((700 * s / 1024 : ℕ) : ℤ) ∧
     (iconGeom s).tail_size = ((60 * s / 1024 : ℕ) : ℤ) ∧
     (iconGeom s).sparkle_size = ((200 * s / 1024 : ℕ) : ℤ) ∧
     (iconGeom s).dot_size = ((20 * s / 1024 : ℕ) : ℤ)) ∧
    ((700 * s : ℤ) - 1024 < 1024 * (iconGeom s).bubble_size ∧
      1024 * (iconGeom s).bubble_size ≤ (700 * s : ℤ)) ∧
    ((60 * s : ℤ) - 1024 < 1024 * (iconGeom s).tail_size ∧
      1024 * (iconGeom s).tail_size ≤ (60 * s : ℤ)) ∧
    ((200 * s : ℤ) - 1024 < 1024 * (iconGeom s).sparkle_size ∧
      1024 * (iconGeom s).sparkle_size ≤ (200 * s : ℤ)) ∧
    ((20 * s : ℤ) - 1024 < 1024 * (iconGeom s).dot_size ∧
      1024 * (iconGeom s).dot_size ≤ (20 * s : ℤ)) := by
  have hb : (iconGeom s).bubble_size = ((700 * s / 1024 : ℕ) : ℤ) :=
    ratTrunc_scale 700 s
  have ht : (iconGeom s).tail_size = ((60 * s / 1024 : ℕ) : ℤ) :=
    ratTrunc_scale 60 s
  have hsp : (iconGeom s).sparkle_size = ((200 * s / 1024 : ℕ) : ℤ) :=
    ratTrunc_scale 200 s
  have hd : (iconGeom s).dot_size = ((20 * s / 1024 : ℕ) : ℤ) :=
    ratTrunc_scale 20 s
  refine ⟨⟨hb, ht, hsp, hd⟩, ?_, ?_, ?_, ?_⟩
  · rw [hb]; exact natdiv_bounds 700 s
  · rw [ht]; exact natdiv_bounds 60 s
  · rw [hsp]; exact natdiv_bounds 200 s
  · rw [hd]; exact natdiv_bounds 20 s

/-- C8: the renderer is deterministic — two invocations with the same
size yield the same (pixel-identical) image. -/
theorem renderer_deterministic (s t : ℕ) (h : s = t) :
    draw_urgood_icon s = draw_urgood_icon t ∧
      ∀ x y : ℕ, (draw_urgood_icon s).px x y = (draw_urgood_icon t).px x y := by
  subst h
  exact ⟨rfl, fun _ _ => rfl⟩

/-- Witness for C8 at size 16. -/
theorem renderer_deterministic_witness :
    (16 : ℕ) = 16 ∧ draw_urgood_icon 16 = draw_urgood_icon 16 :=
  ⟨rfl, (renderer_deterministic 16 16 rfl).1⟩

/-- C9: the bubble bounding box is the square of side `int(700*scale)`
with left edge `(S - side) // 2` (horizontal centring) and top edge
`int((S - side) // 2 - 40*scale)` (shifted up by `40*scale`). -/
theorem bubble_box_formulas (s : ℕ) :
    (iconGeom s).bubble_size = specBubbleSide s ∧
    (iconGeom s).bubble_x = specBubbleLeft s ∧
    (iconGeom s).bubble_y = specBubbleTop s :=
  ⟨rfl, rfl, rfl⟩

/-- C10: at the smallest supported size 16 the tail size and the accent
dot radius truncate to 0 (degenerate tail triangle and single-pixel
dots), yet the renderer still completes and returns a 16 × 16 image. -/
theorem degenerate_small_size :
    (iconGeom 16).tail_size = 0 ∧ (iconGeom 16).dot_size = 0 ∧
    (draw_urgood_icon 16).width = 16 ∧ (draw_urgood_icon 16).height = 16 := by
  refine ⟨?_, ?_, rfl, rfl⟩ <;> norm_num [iconGeom, ratTrunc, Int.tdiv]
